import Mathlib

/-!
Verification of the single-joint servo motor controller
(`rotors_gazebo_plugins/src/gazebo_servo_motor_plugin.cpp`).

The controller state, the tick handler `OnUpdate`, the two command
callbacks, the two control laws and the `Load` routine are embedded
shallowly below.  Real-valued quantities (`double` in the source) are
modelled as rationals; the claims under study concern clamping, state
transitions and exact arithmetic identities, none of which depend on
floating-point rounding.
-/

namespace ServoMotor

/-- Modelled from the spec: the clamp utility `limit(value, upper, lower)`
from `rotors_gazebo_plugins` common headers (the header is not under
`src/`).  Per spec section 4.1 and section 8 it clamps `value` into
`[lower, upper]`. -/
def limit (value upper lower : ℚ) : ℚ :=
  if value > upper then upper
  else if value < lower then lower
  else value

/-- Immutable controller configuration (spec section 3, loaded once by
`Load`). -/
structure Config where
  kp : ℚ
  kd : ℚ
  ki : ℚ
  max_torque : ℚ
  max_angle_error_integral : ℚ
  deriving Repr, DecidableEq

/-- The per-tick joint sample read from the joint actuator sink:
`GetAngle(0).Radian()`, `GetVelocity(0)`, `GetForce(0)`. -/
structure Joint where
  angle : ℚ
  velocity : ℚ
  force : ℚ
  deriving Repr, DecidableEq

/-- Mutable controller state: the member variables of `GazeboServoMotor`
touched by the tick handler and the command callbacks, plus the
function-local `static double prev_sim_time` of `OnUpdate` (`none` before
the first tick, when the static is initialised to the first observed
time). -/
structure State where
  received_first_command : Bool
  position_control : Bool
  angle_reference : ℚ
  torque_reference : ℚ
  angle_error_integral : ℚ
  sampling_time : ℚ
  prev_sim_time : Option ℚ
  deriving Repr, DecidableEq

/-- Modelled from the spec: the initial controller state (the member
initialisers live in the plugin header, which is not under `src/`).  Per
spec section 3 the controller starts in `Uninitialized` (no command
received) with a zero accumulated integral. -/
def initState : State :=
  { received_first_command := false
    position_control := false
    angle_reference := 0
    torque_reference := 0
    angle_error_integral := 0
    sampling_time := 0
    prev_sim_time := none }

/-- Embedding of `GazeboServoMotor::PositionCommandCallback`: store the commanded
angle (`SetFromRadian` stores the raw radian value), mark the first
command received, switch to position control. -/
def positionCommandCallback (motor_angle : ℚ) (s : State) : State :=
  { s with
    angle_reference := motor_angle
    received_first_command := true
    position_control := true }

/-- Embedding of `GazeboServoMotor::TorqueCommandCallback`: store the commanded
torque, mark the first command received, switch to torque control. -/
def torqueCommandCallback (torque : ℚ) (s : State) : State :=
  { s with
    torque_reference := torque
    received_first_command := true
    position_control := false }

/-- The sampling-time derivation at the top of `OnUpdate`: the raw delta
against the static `prev_sim_time` (initialised to the current time on
the very first tick), the unconditional update of `prev_sim_time`, then
`sampling_time_ = limit(sampling_time_, 1.0, 0.001)`. -/
def samplingStep (currentTime : ℚ) (s : State) : State :=
  let prev := s.prev_sim_time.getD currentTime
  let raw := currentTime - prev
  { s with
    prev_sim_time := some currentTime
    sampling_time := limit raw 1 (1/1000) }

/-- Embedding of `GazeboServoMotor::UpdatePosition`: PID law with integral
accumulation, anti-windup clamp after accumulation, and output torque
saturation.  Returns the new state and the torque passed to
`SetForce`. -/
def updatePosition (cfg : Config) (j : Joint) (s : State) : State × ℚ :=
  let angle_error := s.angle_reference - j.angle
  let omega := j.velocity
  let integral0 := s.angle_error_integral + angle_error * s.sampling_time
  let integral := limit integral0 cfg.max_angle_error_integral
      (-cfg.max_angle_error_integral)
  let torque0 := cfg.kp * angle_error - cfg.kd * omega + cfg.ki * integral
  let torque := limit torque0 cfg.max_torque (-cfg.max_torque)
  ({ s with angle_error_integral := integral }, torque)

/-- Embedding of `GazeboServoMotor::UpdateTorque`: clamp the stored torque reference;
reads the state, mutates nothing. -/
def updateTorque (cfg : Config) (s : State) : ℚ :=
  limit s.torque_reference cfg.max_torque (-cfg.max_torque)

/-- The per-tick telemetry published by `GazeboServoMotor::Publish`: the
joint state message stamped with the current simulation time. -/
structure Telemetry where
  stamp : ℚ
  position : ℚ
  velocity : ℚ
  effort : ℚ
  deriving Repr, DecidableEq

/-- Embedding of `Publish`: read the simulation clock and the joint accessors and
publishes them. -/
def publish (currentTime : ℚ) (j : Joint) : Telemetry :=
  { stamp := currentTime
    position := j.angle
    velocity := j.velocity
    effort := j.force }

/-- The externally visible effects of one tick: the optional `SetForce`
call and the telemetry message. -/
structure TickOutput where
  setForce : Option ℚ
  telemetry : Telemetry
  deriving Repr, DecidableEq

/-- Embedding of `GazeboServoMotor::OnUpdate`: derive the sampling time, bail out to
`Publish` before the first command, otherwise run the active control law
and publish. -/
def onUpdate (cfg : Config) (currentTime : ℚ) (j : Joint) (s : State) :
    State × TickOutput :=
  let s1 := samplingStep currentTime s
  if s1.received_first_command = false then
    (s1, { setForce := none, telemetry := publish currentTime j })
  else if s1.position_control then
    let r := updatePosition cfg j s1
    (r.1, { setForce := some r.2, telemetry := publish currentTime j })
  else
    (s1, { setForce := some (updateTorque cfg s1),
           telemetry := publish currentTime j })

/-- An externally triggered controller event: one of the two command
callbacks, or a world-update tick carrying the simulation time and the
joint sample read during that tick. -/
inductive Event where
  | posCmd (motor_angle : ℚ)
  | torqueCmd (torque : ℚ)
  | tick (currentTime : ℚ) (j : Joint)
  deriving Repr, DecidableEq

/-- The state transition of a single event. -/
def stepState (cfg : Config) (s : State) : Event → State
  | .posCmd a => positionCommandCallback a s
  | .torqueCmd t => torqueCommandCallback t s
  | .tick t j => (onUpdate cfg t j s).1

/-- Run a sequence of events from a state. -/
def runEvents (cfg : Config) (s : State) (es : List Event) : State :=
  es.foldl (stepState cfg) s

/-- Run a sequence of ticks, collecting the output of each. -/
def runTicks (cfg : Config) (s : State) :
    List (ℚ × Joint) → State × List TickOutput
  | [] => (s, [])
  | (t, j) :: rest =>
      let r := onUpdate cfg t j s
      let rr := runTicks cfg r.1 rest
      (rr.1, r.2 :: rr.2)

/-- An output of a tick taken before any command: no `SetForce` call, and
the telemetry of the tick's time and joint sample. -/
def passthroughOutput (tj : ℚ × Joint) (out : TickOutput) : Prop :=
  out.setForce = none ∧ out.telemetry = publish tj.1 tj.2

/-! Startup loading (`GazeboServoMotor::Load`). -/

/-- The SDF configuration surface read by `Load`: each element either
present with its value or absent. -/
structure Sdf where
  robotNamespace : Option String
  jointName : Option String
  motorModel : Option String
  maxTorque : Option ℚ
  noLoadSpeed : Option ℚ
  maxAngleErrorIntegral : Option ℚ
  commandSubTopic : Option String
  jointStatePubTopic : Option String
  kp : Option ℚ
  kd : Option ℚ
  ki : Option ℚ
  maxAngle : Option ℚ
  minAngle : Option ℚ
  deriving Repr, DecidableEq

/-- The plugin member fields written by `Load`.  An instance also serves
as the pre-`Load` member values: `getSdfParam` and the required-field
reads keep the current member value when the SDF element is absent
(the member initialisers live in the plugin header, which is not under
`src/`; they are modelled from the spec as an arbitrary `Members`
value). -/
structure Members where
  robot_namespace : String
  joint_name : String
  motor_model : String
  max_torque : ℚ
  no_load_speed : ℚ
  max_angle_error_integral : ℚ
  command_sub_topic : String
  joint_state_pub_topic : String
  kp : ℚ
  kd : ℚ
  ki : ℚ
  max_angle : ℚ
  min_angle : ℚ
  deriving Repr, DecidableEq

def errRobotNamespace : String :=
  "Please specify a robotNamespace."

def errJointName : String :=
  "Please specify a jointName, where the rotor is attached."

def errJointNotFound : String :=
  "Could not find specified joint."

def errMotorModel : String :=
  "Please specify a motorModel."

def errMaxTorque : String :=
  "Please specify a maxTorque."

def errNoLoadSpeed : String :=
  "Please specify a noLoadSpeed."

/-- The outcome of `Load`: `fatal` when `gzthrow` aborts the plugin,
`started` when `Load` runs to completion (subscribing and advertising),
carrying the `gzerr` messages issued on the way and the resulting member
values.  The joint's lower/upper limits are set to the resulting
`min_angle`/`max_angle` unconditionally, without any ordering check. -/
inductive LoadResult where
  | fatal (msg : String)
  | started (errors : List String) (m : Members)
  deriving Repr, DecidableEq

def LoadResult.isStarted : LoadResult → Bool
  | .fatal _ => false
  | .started _ _ => true

def LoadResult.errorList : LoadResult → List String
  | .fatal _ => []
  | .started e _ => e

/-- Embedding of `GazeboServoMotor::Load`, statement by statement: `namespace_` is
cleared then set if present (else `gzerr`); `joint_name_` is set if
present (else `gzerr`); the joint lookup failure is the one `gzthrow`;
`motorModel`, `maxTorque`, `noLoadSpeed` each `gzerr` when absent; the
remaining parameters are read with `getSdfParam` defaults and never
produce an error; then the joint limits are set and the subscriptions
and the publisher are created (the plugin starts). -/
def load (getJoint : String → Bool) (m0 : Members) (sdf : Sdf) : LoadResult :=
  let e1 : List String :=
    if sdf.robotNamespace.isSome then [] else [errRobotNamespace]
  let joint_name := sdf.jointName.getD m0.joint_name
  let e2 := e1 ++ (if sdf.jointName.isSome then [] else [errJointName])
  if getJoint joint_name = false then .fatal errJointNotFound
  else
    let e3 := e2 ++ (if sdf.motorModel.isSome then [] else [errMotorModel])
    let e4 := e3 ++ (if sdf.maxTorque.isSome then [] else [errMaxTorque])
    let e5 := e4 ++ (if sdf.noLoadSpeed.isSome then [] else [errNoLoadSpeed])
    .started e5
      { robot_namespace := sdf.robotNamespace.getD ""
        joint_name := joint_name
        motor_model := sdf.motorModel.getD m0.motor_model
        max_torque := sdf.maxTorque.getD m0.max_torque
        no_load_speed := sdf.noLoadSpeed.getD m0.no_load_speed
        max_angle_error_integral :=
          sdf.maxAngleErrorIntegral.getD m0.max_angle_error_integral
        command_sub_topic := sdf.commandSubTopic.getD m0.command_sub_topic
        joint_state_pub_topic :=
          sdf.jointStatePubTopic.getD m0.joint_state_pub_topic
        kp := sdf.kp.getD m0.kp
        kd := sdf.kd.getD m0.kd
        ki := sdf.ki.getD m0.ki
        max_angle := sdf.maxAngle.getD m0.max_angle
        min_angle := sdf.minAngle.getD m0.min_angle }

/-- The `gzerr` messages of a `Load` run that passes the joint lookup:
they depend only on the presence of the five checked elements, not on
`minAngle` or `maxAngle`. -/
def loadErrors (sdf : Sdf) : List String :=
  (if sdf.robotNamespace.isSome then [] else [errRobotNamespace]) ++
  (if sdf.jointName.isSome then [] else [errJointName]) ++
  (if sdf.motorModel.isSome then [] else [errMotorModel]) ++
  (if sdf.maxTorque.isSome then [] else [errMaxTorque]) ++
  (if sdf.noLoadSpeed.isSome then [] else [errNoLoadSpeed])

/-- A joint lookup in which every name resolves. -/
def allJoints : String → Bool := fun _ => true

/-- Arbitrary concrete pre-`Load` member values for the concrete
`Load` runs below. -/
def membersD : Members :=
  { robot_namespace := "", joint_name := "", motor_model := "",
    max_torque := 0, no_load_speed := 0, max_angle_error_integral := 0,
    command_sub_topic := "command", joint_state_pub_topic := "joint_state",
    kp := 0, kd := 0, ki := 0, max_angle := 0, min_angle := 0 }

/-- An SDF with a valid joint but no `maxTorque` element, and with
`minAngle = 2 > maxAngle = 1`. -/
def sdfMissingMaxTorque : Sdf :=
  { robotNamespace := some "ns", jointName := some "servo_joint",
    motorModel := some "dc", maxTorque := none, noLoadSpeed := some 10,
    maxAngleErrorIntegral := none, commandSubTopic := none,
    jointStatePubTopic := none, kp := none, kd := none, ki := none,
    maxAngle := some 1, minAngle := some 2 }

/-! Concrete sample data used by the witness theorems. -/

/-- The example configuration of the spec's scenario (section 8). -/
def cfgA : Config :=
  { kp := 2, kd := 1/2, ki := 0, max_torque := 10, max_angle_error_integral := 1 }

/-- A joint at rest at angle zero. -/
def jZero : Joint := { angle := 0, velocity := 0, force := 0 }

/-- A state in torque-control mode with torque reference 1. -/
def sTorque : State :=
  { received_first_command := true, position_control := false,
    angle_reference := 0, torque_reference := 1, angle_error_integral := 0,
    sampling_time := 0, prev_sim_time := none }

/-- A state in position-control mode with angle reference 1/2. -/
def sPos : State :=
  { received_first_command := true, position_control := true,
    angle_reference := 1/2, torque_reference := 0, angle_error_integral := 0,
    sampling_time := 0, prev_sim_time := some 0 }

/-! Helper lemmas. -/

lemma limit_mem {lo hi : ℚ} (v : ℚ) (h : lo ≤ hi) :
    lo ≤ limit v hi lo ∧ limit v hi lo ≤ hi := by
  unfold limit
  split_ifs with h1 h2
  · exact ⟨h, le_refl hi⟩
  · exact ⟨le_refl lo, h⟩
  · exact ⟨le_of_not_lt h2, le_of_not_lt h1⟩

lemma samplingStep_received (t : ℚ) (s : State) :
    (samplingStep t s).received_first_command = s.received_first_command := rfl

lemma samplingStep_position_control (t : ℚ) (s : State) :
    (samplingStep t s).position_control = s.position_control := rfl

lemma onUpdate_fst_of_uninit (cfg : Config) (t : ℚ) (j : Joint) (s : State)
    (h : s.received_first_command = false) :
    (onUpdate cfg t j s).1 = samplingStep t s := by
  simp [onUpdate, samplingStep, h]

lemma onUpdate_fst_of_torque (cfg : Config) (t : ℚ) (j : Joint) (s : State)
    (h : s.received_first_command = true) (hp : s.position_control = false) :
    (onUpdate cfg t j s).1 = samplingStep t s := by
  simp [onUpdate, samplingStep, h, hp]

lemma onUpdate_of_position (cfg : Config) (t : ℚ) (j : Joint) (s : State)
    (h : s.received_first_command = true) (hp : s.position_control = true) :
    onUpdate cfg t j s =
      ((updatePosition cfg j (samplingStep t s)).1,
       { setForce := some (updatePosition cfg j (samplingStep t s)).2,
         telemetry := publish t j }) := by
  simp [onUpdate, samplingStep, h, hp]

lemma updatePosition_integral (cfg : Config) (j : Joint) (s : State) :
    (updatePosition cfg j s).1.angle_error_integral =
      limit (s.angle_error_integral + (s.angle_reference - j.angle) * s.sampling_time)
        cfg.max_angle_error_integral (-cfg.max_angle_error_integral) := rfl

lemma updatePosition_snd (cfg : Config) (j : Joint) (s : State) :
    (updatePosition cfg j s).2 =
      limit (cfg.kp * (s.angle_reference - j.angle) - cfg.kd * j.velocity +
          cfg.ki * (updatePosition cfg j s).1.angle_error_integral)
        cfg.max_torque (-cfg.max_torque) := rfl

/-- Claim C1: for every configuration with `max_torque ≥ 0`, on any tick
from any controller state, the torque written to the joint actuator sink
(by either control law) lies in `[-max_torque, max_torque]`, regardless
of the magnitudes of `angle_reference` or `torque_reference`. -/
theorem torque_output_within_max_torque (cfg : Config)
    (hM : 0 ≤ cfg.max_torque) (t : ℚ) (j : Joint) (s : State) (τ : ℚ)
    (hout : (onUpdate cfg t j s).2.setForce = some τ) :
    -cfg.max_torque ≤ τ ∧ τ ≤ cfg.max_torque := by
  have hlim : -cfg.max_torque ≤ cfg.max_torque := by linarith
  simp only [onUpdate] at hout
  split_ifs at hout with h1 h2
  · dsimp only at hout
    injection hout with h
    rw [← h, updatePosition_snd]
    exact limit_mem _ hlim
  · dsimp only at hout
    injection hout with h
    rw [← h]
    simp only [updateTorque]
    exact limit_mem _ hlim

/-- Witness for C1: the torque-mode tick from `sTorque` under `cfgA`
writes torque 1, and the theorem bounds it by `±max_torque = ±10`. -/
theorem torque_output_within_max_torque_witness :
    -cfgA.max_torque ≤ 1 ∧ (1 : ℚ) ≤ cfgA.max_torque :=
  torque_output_within_max_torque cfgA (by norm_num [cfgA]) 0 jZero sTorque 1
    (by decide)

/-- Claim C3: on a position-mode tick the torque written to the sink is
`limit(kp*angle_error - kd*omega + ki*angle_error_integral, max_torque,
-max_torque)` with `angle_error = angle_reference - joint.angle`,
`omega = joint.velocity`, and `angle_error_integral` the value after this
tick's accumulation and clamp; in particular, under the spec's example
configuration, a position command `angle = 1/2` followed by a tick with
`joint.angle = 0`, `joint.velocity = 0` and sampling time `1/100` writes
torque 1. -/
theorem position_law_output_formula :
    (∀ (cfg : Config) (t : ℚ) (j : Joint) (s : State),
      s.received_first_command = true → s.position_control = true →
      (onUpdate cfg t j s).2.setForce =
        some (limit
          (cfg.kp * (s.angle_reference - j.angle) - cfg.kd * j.velocity +
            cfg.ki * limit
              (s.angle_error_integral +
                (s.angle_reference - j.angle) * (samplingStep t s).sampling_time)
              cfg.max_angle_error_integral (-cfg.max_angle_error_integral))
          cfg.max_torque (-cfg.max_torque)))
    ∧ (onUpdate cfgA (1/100) jZero
        (runEvents cfgA initState [Event.tick 0 jZero, Event.posCmd (1/2)])).2.setForce
        = some 1 := by
  constructor
  · intro cfg t j s h hp
    rw [onUpdate_of_position cfg t j s h hp]
    rfl
  · norm_num [runEvents, stepState, onUpdate, samplingStep, positionCommandCallback,
      updatePosition, initState, cfgA, jZero, limit, publish, List.foldl]

/-- Witness for C3: the general formula instantiated at the concrete
position-mode state `sPos`. -/
theorem position_law_output_formula_witness :
    (onUpdate cfgA 0 jZero sPos).2.setForce =
      some (limit
        (cfgA.kp * (sPos.angle_reference - jZero.angle) - cfgA.kd * jZero.velocity +
          cfgA.ki * limit
            (sPos.angle_error_integral +
              (sPos.angle_reference - jZero.angle) * (samplingStep 0 sPos).sampling_time)
            cfgA.max_angle_error_integral (-cfgA.max_angle_error_integral))
        cfgA.max_torque (-cfgA.max_torque)) :=
  position_law_output_formula.1 cfgA 0 jZero sPos rfl rfl

lemma onUpdate_timing (cfg : Config) (t : ℚ) (j : Joint) (s : State) :
    (onUpdate cfg t j s).1.prev_sim_time = some t ∧
    (onUpdate cfg t j s).1.sampling_time =
      limit (t - s.prev_sim_time.getD t) 1 (1/1000) := by
  simp only [onUpdate]
  split_ifs <;> simp [samplingStep, updatePosition]

/-- Claim C4: on every tick, `sampling_time` is the raw delta
`current_sim_time - previous_sim_time` clamped into `[0.001, 1.0]`
(also for zero or negative raw deltas), `previous_sim_time` is updated
to the current time unconditionally and independently of the clamping,
and on the very first tick the raw delta is 0, clamped to 0.001. -/
theorem sampling_time_derivation (cfg : Config) (t : ℚ) (j : Joint) (s : State) :
    (onUpdate cfg t j s).1.prev_sim_time = some t ∧
    (onUpdate cfg t j s).1.sampling_time =
      limit (t - s.prev_sim_time.getD t) 1 (1/1000) ∧
    (1/1000 ≤ (onUpdate cfg t j s).1.sampling_time ∧
      (onUpdate cfg t j s).1.sampling_time ≤ 1) ∧
    (t - s.prev_sim_time.getD t ≤ 0 →
      (onUpdate cfg t j s).1.sampling_time = 1/1000) ∧
    (s.prev_sim_time = none →
      (onUpdate cfg t j s).1.sampling_time = 1/1000) := by
  obtain ⟨hprev, hsamp⟩ := onUpdate_timing cfg t j s
  have hlo : (1/1000 : ℚ) ≤ 1 := by norm_num
  have hzero : ∀ r : ℚ, r ≤ 0 → limit r 1 (1/1000) = 1/1000 := by
    intro r hr
    unfold limit
    rw [if_neg (by linarith), if_pos (by linarith)]
  refine ⟨hprev, hsamp, ?_, ?_, ?_⟩
  · rw [hsamp]
    exact ⟨(limit_mem _ hlo).1, (limit_mem _ hlo).2⟩
  · intro hr
    rw [hsamp]
    exact hzero _ hr
  · intro hnone
    rw [hsamp, hnone]
    simpa using hzero 0 le_rfl

/-- Witness for C4: the first tick at time 7 from the initial state sets
`prev_sim_time` and clamps the zero raw delta to `1/1000`. -/
theorem sampling_time_derivation_witness :
    (onUpdate cfgA 7 jZero initState).1.prev_sim_time = some 7 ∧
    (onUpdate cfgA 7 jZero initState).1.sampling_time =
      limit (7 - (initState.prev_sim_time.getD 7)) 1 (1/1000) ∧
    (1/1000 ≤ (onUpdate cfgA 7 jZero initState).1.sampling_time ∧
      (onUpdate cfgA 7 jZero initState).1.sampling_time ≤ 1) ∧
    ((7 : ℚ) - initState.prev_sim_time.getD 7 ≤ 0 →
      (onUpdate cfgA 7 jZero initState).1.sampling_time = 1/1000) ∧
    (initState.prev_sim_time = none →
      (onUpdate cfgA 7 jZero initState).1.sampling_time = 1/1000) :=
  sampling_time_derivation cfgA 7 jZero initState

/-- Claim C7: after a switch from position control to torque control, the
very next tick writes exactly `limit(torque_reference, max_torque,
-max_torque)` with no contribution from the position law, and the tick
leaves the control state (integral, references, mode, first-command
flag) exactly as command ingestion set it. -/
theorem torque_mode_switch_applies_reference (cfg : Config) (s : State)
    (τ t : ℚ) (j : Joint) (_hp : s.position_control = true) :
    (onUpdate cfg t j (torqueCommandCallback τ s)).2.setForce =
      some (limit τ cfg.max_torque (-cfg.max_torque)) ∧
    (onUpdate cfg t j (torqueCommandCallback τ s)).1.angle_error_integral =
      s.angle_error_integral ∧
    (onUpdate cfg t j (torqueCommandCallback τ s)).1.angle_reference =
      s.angle_reference ∧
    (onUpdate cfg t j (torqueCommandCallback τ s)).1.torque_reference = τ ∧
    (onUpdate cfg t j (torqueCommandCallback τ s)).1.position_control = false ∧
    (onUpdate cfg t j (torqueCommandCallback τ s)).1.received_first_command
      = true := by
  simp [onUpdate, torqueCommandCallback, samplingStep, updateTorque]

/-- Witness for C7: switching `sPos` (position mode) to torque reference 3
and ticking applies `limit 3 10 (-10)` and preserves the state. -/
theorem torque_mode_switch_applies_reference_witness :
    (onUpdate cfgA 1 jZero (torqueCommandCallback 3 sPos)).2.setForce =
      some (limit 3 cfgA.max_torque (-cfgA.max_torque)) ∧
    (onUpdate cfgA 1 jZero (torqueCommandCallback 3 sPos)).1.angle_error_integral =
      sPos.angle_error_integral ∧
    (onUpdate cfgA 1 jZero (torqueCommandCallback 3 sPos)).1.angle_reference =
      sPos.angle_reference ∧
    (onUpdate cfgA 1 jZero (torqueCommandCallback 3 sPos)).1.torque_reference = 3 ∧
    (onUpdate cfgA 1 jZero (torqueCommandCallback 3 sPos)).1.position_control = false ∧
    (onUpdate cfgA 1 jZero (torqueCommandCallback 3 sPos)).1.received_first_command
      = true :=
  torque_mode_switch_applies_reference cfgA sPos 3 1 jZero rfl

lemma updatePosition_fst_received (cfg : Config) (j : Joint) (s : State) :
    (updatePosition cfg j s).1.received_first_command =
      s.received_first_command := rfl

lemma onUpdate_position_integral (cfg : Config) (t : ℚ) (j : Joint) (s : State)
    (h : s.received_first_command = true) (hp : s.position_control = true) :
    (onUpdate cfg t j s).1.angle_error_integral =
      limit (s.angle_error_integral +
          (s.angle_reference - j.angle) * (samplingStep t s).sampling_time)
        cfg.max_angle_error_integral (-cfg.max_angle_error_integral) := by
  rw [onUpdate_of_position cfg t j s h hp]
  rfl

lemma stepState_integral_mem (cfg : Config)
    (hM : 0 ≤ cfg.max_angle_error_integral) (s : State) (e : Event)
    (h : -cfg.max_angle_error_integral ≤ s.angle_error_integral ∧
      s.angle_error_integral ≤ cfg.max_angle_error_integral) :
    -cfg.max_angle_error_integral ≤ (stepState cfg s e).angle_error_integral ∧
      (stepState cfg s e).angle_error_integral ≤ cfg.max_angle_error_integral := by
  have hlim : -cfg.max_angle_error_integral ≤ cfg.max_angle_error_integral := by
    linarith
  cases e with
  | posCmd a => simpa [stepState, positionCommandCallback] using h
  | torqueCmd τ => simpa [stepState, torqueCommandCallback] using h
  | tick t j =>
    simp only [stepState, onUpdate]
    split_ifs with h1 h2
    · simpa [samplingStep] using h
    · dsimp only
      rw [updatePosition_integral]
      exact limit_mem _ hlim
    · simpa [samplingStep] using h

lemma runEvents_integral_mem (cfg : Config)
    (hM : 0 ≤ cfg.max_angle_error_integral) (es : List Event) :
    ∀ s : State,
      (-cfg.max_angle_error_integral ≤ s.angle_error_integral ∧
        s.angle_error_integral ≤ cfg.max_angle_error_integral) →
      -cfg.max_angle_error_integral ≤ (runEvents cfg s es).angle_error_integral ∧
        (runEvents cfg s es).angle_error_integral ≤ cfg.max_angle_error_integral := by
  induction es with
  | nil => intro s h; simpa [runEvents] using h
  | cons e rest ih =>
    intro s h
    have hstep := stepState_integral_mem cfg hM s e h
    simpa [runEvents, List.foldl] using ih (stepState cfg s e) hstep

/-- Claim C2: with `max_angle_error_integral ≥ 0`, after any sequence of
ticks and commands from the initial state, `angle_error_integral` lies in
`[-max_angle_error_integral, max_angle_error_integral]`, and on every
position-mode tick the clamp is applied right after the accumulation
step. -/
theorem angle_error_integral_within_bounds (cfg : Config)
    (hM : 0 ≤ cfg.max_angle_error_integral) :
    (∀ es : List Event,
      -cfg.max_angle_error_integral ≤
          (runEvents cfg initState es).angle_error_integral ∧
        (runEvents cfg initState es).angle_error_integral ≤
          cfg.max_angle_error_integral) ∧
    (∀ (t : ℚ) (j : Joint) (s : State),
      s.received_first_command = true → s.position_control = true →
      (onUpdate cfg t j s).1.angle_error_integral =
        limit (s.angle_error_integral +
            (s.angle_reference - j.angle) * (samplingStep t s).sampling_time)
          cfg.max_angle_error_integral (-cfg.max_angle_error_integral)) := by
  constructor
  · intro es
    apply runEvents_integral_mem cfg hM es initState
    constructor <;> simp [initState] <;> linarith
  · intro t j s h hp
    exact onUpdate_position_integral cfg t j s h hp

/-- Witness for C2: under `cfgA` the integral stays within `±1` after a
position command followed by two ticks. -/
theorem angle_error_integral_within_bounds_witness :
    -cfgA.max_angle_error_integral ≤
        (runEvents cfgA initState
          [Event.posCmd 5, Event.tick 0 jZero, Event.tick (1/2) jZero]).angle_error_integral ∧
      (runEvents cfgA initState
          [Event.posCmd 5, Event.tick 0 jZero, Event.tick (1/2) jZero]).angle_error_integral ≤
        cfgA.max_angle_error_integral :=
  (angle_error_integral_within_bounds cfgA (by norm_num [cfgA])).1
    [Event.posCmd 5, Event.tick 0 jZero, Event.tick (1/2) jZero]

/-- Claim C5: for every sequence of ticks before the first command is
received, no control law runs — `SetForce` is never invoked at all, so in
particular never with a nonzero computed torque — while telemetry is
still published on every such tick. -/
theorem no_force_before_first_command (cfg : Config) (s : State)
    (h : s.received_first_command = false) (ticks : List (ℚ × Joint)) :
    List.Forall₂ passthroughOutput ticks (runTicks cfg s ticks).2 := by
  induction ticks generalizing s with
  | nil => simp [runTicks]
  | cons tj rest ih =>
    obtain ⟨t, j⟩ := tj
    have h1 : (samplingStep t s).received_first_command = false := by
      simpa [samplingStep] using h
    have hup : onUpdate cfg t j s =
        (samplingStep t s, { setForce := none, telemetry := publish t j }) := by
      simp [onUpdate, h1]
    simp only [runTicks, hup]
    exact List.Forall₂.cons ⟨rfl, rfl⟩ (ih _ h1)

/-- Witness for C5: two ticks from the initial state produce no `SetForce`
call and publish telemetry each tick. -/
theorem no_force_before_first_command_witness :
    List.Forall₂ passthroughOutput [((0:ℚ), jZero), ((1:ℚ), jZero)]
      (runTicks cfgA initState [((0:ℚ), jZero), ((1:ℚ), jZero)]).2 :=
  no_force_before_first_command cfgA initState rfl _

/-- Claim C6: a position command sets `angle_reference`, switches to
position control and marks the first-command flag; a torque command sets
`torque_reference`, switches to torque control and marks the flag; each
command unconditionally overwrites reference and mode (last-write-wins);
the flag, once true, stays true under every event, and ticks never change
the mode, so commands are the only mode transitions and the state never
returns to uninitialized. -/
theorem command_mode_transitions :
    (∀ (a : ℚ) (s : State), positionCommandCallback a s =
      { s with angle_reference := a, received_first_command := true, position_control := true }) ∧
    (∀ (τ : ℚ) (s : State), torqueCommandCallback τ s =
      { s with torque_reference := τ, received_first_command := true, position_control := false }) ∧
    (∀ (cfg : Config) (e : Event) (s : State),
      s.received_first_command = true →
      (stepState cfg s e).received_first_command = true) ∧
    (∀ (cfg : Config) (t : ℚ) (j : Joint) (s : State),
      (onUpdate cfg t j s).1.position_control = s.position_control) := by
  refine ⟨fun a s => rfl, fun τ s => rfl, ?_, ?_⟩
  · intro cfg e s h
    cases e with
    | posCmd a => rfl
    | torqueCmd τ => rfl
    | tick t j =>
      simp only [stepState, onUpdate]
      split_ifs with h1 h2
      · simpa [samplingStep] using h
      · dsimp only
        rw [updatePosition_fst_received]
        simpa [samplingStep] using h
      · simpa [samplingStep] using h
  · intro cfg t j s
    simp only [onUpdate]
    split_ifs with h1 h2 <;> simp [samplingStep, updatePosition]

/-- Witness for C6: the flag stays true across a tick from `sTorque`. -/
theorem command_mode_transitions_witness :
    (stepState cfgA sTorque (Event.tick 0 jZero)).received_first_command = true :=
  command_mode_transitions.2.2.1 cfgA (Event.tick 0 jZero) sTorque rfl

/-- Claim C8: `angle_error_integral` is never explicitly zeroed: both
command callbacks leave it unchanged (so mode switches in either
direction carry it over), every tick outside the position law leaves it
unchanged, and the only change is the accumulation-and-clamp of a
position-mode tick. -/
theorem integral_never_explicitly_reset :
    (∀ (a : ℚ) (s : State),
      (positionCommandCallback a s).angle_error_integral = s.angle_error_integral) ∧
    (∀ (τ : ℚ) (s : State),
      (torqueCommandCallback τ s).angle_error_integral = s.angle_error_integral) ∧
    (∀ (cfg : Config) (t : ℚ) (j : Joint) (s : State),
      ¬(s.received_first_command = true ∧ s.position_control = true) →
      (onUpdate cfg t j s).1.angle_error_integral = s.angle_error_integral) ∧
    (∀ (cfg : Config) (t : ℚ) (j : Joint) (s : State),
      s.received_first_command = true → s.position_control = true →
      (onUpdate cfg t j s).1.angle_error_integral =
        limit (s.angle_error_integral +
            (s.angle_reference - j.angle) * (samplingStep t s).sampling_time)
          cfg.max_angle_error_integral (-cfg.max_angle_error_integral)) := by
  refine ⟨fun a s => rfl, fun τ s => rfl, ?_, ?_⟩
  · intro cfg t j s hn
    simp only [onUpdate]
    split_ifs with h1 h2
    · simp [samplingStep]
    · exfalso
      apply hn
      constructor
      · simpa [samplingStep] using h1
      · simpa [samplingStep] using h2
    · simp [samplingStep]
  · intro cfg t j s h hp
    exact onUpdate_position_integral cfg t j s h hp

/-- Witness for C8: a torque-mode tick from `sTorque` leaves the integral
unchanged. -/
theorem integral_never_explicitly_reset_witness :
    (onUpdate cfgA 0 jZero sTorque).1.angle_error_integral =
      sTorque.angle_error_integral :=
  integral_never_explicitly_reset.2.2.1 cfgA 0 jZero sTorque (by simp [sTorque])

/-- Claim C10: each command handler preserves the other mode's reference —
a position command leaves `torque_reference` unchanged and a torque
command leaves `angle_reference` unchanged — so after the sequence
torque command `t`, position command `a`, torque command `t2`, the next
tick applies exactly `limit(t2, max_torque, -max_torque)`, depending only
on `t2`. -/
theorem opposite_mode_reference_preserved :
    (∀ (a : ℚ) (s : State),
      (positionCommandCallback a s).torque_reference = s.torque_reference) ∧
    (∀ (τ : ℚ) (s : State),
      (torqueCommandCallback τ s).angle_reference = s.angle_reference) ∧
    (∀ (cfg : Config) (s : State) (t t2 a u : ℚ) (j : Joint),
      (onUpdate cfg u j (runEvents cfg s
          [Event.torqueCmd t, Event.posCmd a, Event.torqueCmd t2])).2.setForce =
        some (limit t2 cfg.max_torque (-cfg.max_torque))) := by
  refine ⟨fun a s => rfl, fun τ s => rfl, ?_⟩
  intro cfg s t t2 a u j
  simp [runEvents, stepState, List.foldl, onUpdate, samplingStep,
    positionCommandCallback, torqueCommandCallback, updateTorque]

lemma load_eq (g : String → Bool) (m0 : Members) (sdf : Sdf) :
    load g m0 sdf =
      if g (sdf.jointName.getD m0.joint_name) = false then
        .fatal errJointNotFound
      else
        .started (loadErrors sdf)
          { robot_namespace := sdf.robotNamespace.getD ""
            joint_name := sdf.jointName.getD m0.joint_name
            motor_model := sdf.motorModel.getD m0.motor_model
            max_torque := sdf.maxTorque.getD m0.max_torque
            no_load_speed := sdf.noLoadSpeed.getD m0.no_load_speed
            max_angle_error_integral :=
              sdf.maxAngleErrorIntegral.getD m0.max_angle_error_integral
            command_sub_topic := sdf.commandSubTopic.getD m0.command_sub_topic
            joint_state_pub_topic :=
              sdf.jointStatePubTopic.getD m0.joint_state_pub_topic
            kp := sdf.kp.getD m0.kp
            kd := sdf.kd.getD m0.kd
            ki := sdf.ki.getD m0.ki
            max_angle := sdf.maxAngle.getD m0.max_angle
            min_angle := sdf.minAngle.getD m0.min_angle } := by
  simp only [load, loadErrors, List.append_assoc]

/-- Counterexample to claim C9 as stated: with a resolvable joint, an SDF
missing the required `maxTorque` element and with `minAngle = 2 >
maxAngle = 1` still completes `Load` — the controller starts — with the
missing-field message as the only error and no error at all for the
inverted angle range. -/
theorem load_starts_despite_missing_required_field :
    (load allJoints membersD sdfMissingMaxTorque).isStarted = true ∧
    (load allJoints membersD sdfMissingMaxTorque).errorList = [errMaxTorque] ∧
    sdfMissingMaxTorque.maxTorque = none ∧
    sdfMissingMaxTorque.minAngle = some 2 ∧
    sdfMissingMaxTorque.maxAngle = some 1 :=
  ⟨rfl, rfl, rfl, rfl, rfl⟩

/-- Amended claim C9: only an invalid joint reference is fatal at startup
(`Load` throws and the controller does not start); a missing required
field (robotNamespace, jointName, motorModel, maxTorque, noLoadSpeed) is
surfaced as an error message but the controller still starts; and
`min_angle > max_angle` is not checked — the error output never depends
on the angle elements. -/
theorem load_error_behavior (g : String → Bool) (m0 : Members) (sdf : Sdf) :
    ((load g m0 sdf).isStarted = false ↔
      g (sdf.jointName.getD m0.joint_name) = false) ∧
    (g (sdf.jointName.getD m0.joint_name) = true →
      ((errMaxTorque ∈ (load g m0 sdf).errorList) ↔ sdf.maxTorque = none)) ∧
    (∀ mi ma : Option ℚ,
      (load g m0 { sdf with minAngle := mi, maxAngle := ma }).errorList =
        (load g m0 sdf).errorList ∧
      (load g m0 { sdf with minAngle := mi, maxAngle := ma }).isStarted =
        (load g m0 sdf).isStarted) := by
  refine ⟨?_, ?_, ?_⟩
  · rw [load_eq]
    cases hg : g (sdf.jointName.getD m0.joint_name) <;>
      simp [LoadResult.isStarted, hg]
  · intro hgt
    rw [load_eq, if_neg (by simp [hgt])]
    cases hmt : sdf.maxTorque with
    | none =>
      simp [LoadResult.errorList, loadErrors, hmt]
    | some v =>
      simp only [LoadResult.errorList, loadErrors, hmt, Option.isSome_some,
        if_true, List.append_nil, List.mem_append]
      constructor
      · intro hmem
        exfalso
        rcases hmem with (((h1 | h2) | h3) | h4) <;>
          [skip; skip; skip; skip] <;>
          split_ifs at * <;> simp_all [errRobotNamespace, errJointName,
            errMotorModel, errMaxTorque, errNoLoadSpeed]
      · intro h
        exact absurd h (by simp)
  · intro mi ma
    rw [load_eq, load_eq]
    cases hg : g (sdf.jointName.getD m0.joint_name) <;>
      simp [LoadResult.errorList, LoadResult.isStarted, loadErrors, hg]

/-- Witness for the amended C9: for the concrete SDF missing `maxTorque`
the membership statement holds with the joint-lookup hypothesis
discharged. -/
theorem load_error_behavior_witness :
    (errMaxTorque ∈ (load allJoints membersD sdfMissingMaxTorque).errorList) ↔
      sdfMissingMaxTorque.maxTorque = none :=
  (load_error_behavior allJoints membersD sdfMissingMaxTorque).2.1 rfl

end ServoMotor
